import Mathlib

/-!
Shallow embedding of the AWV reporting pipeline in `src/app.py` and proofs about it.

The embedding follows the script line by line from the point where the raw FlexQuery
trade rows are available (the dataframe `df` after the download loop): the TradeCancel
filter (line 180), column selection and renaming (183-192), the reporting-period filter
(197-205), the CASH filter (208), fx enrichment (211-213), side translation (216-219),
the EUR amount (220), the NaN fills (223-224), the order-level groupby (227), the
country code (229-237), the monthly groupby (240), the threshold (243-244), Belegart
(248-249), Kennzahl (255, 272-275), absolute quantity (277), column ordering (284-292),
rounding and integer conversion (298-313), the final absolute values (315-321) and the
row order written to the CSV (328).

Modelling choices:
* money, rates, quantities and dates are rationals (the source uses floats; nothing in
  the verified properties depends on binary floating point);
* the external fx source is an oracle returning `some rate` or `none` for any failure
  (no data, network error, malformed response), matching the try/except in fxRate;
* pandas group keys are tuples of Python strings sorted ascending; string comparison is
  lexicographic by Unicode code point, which is exactly the order on `List Char` used
  here, and the groupby itself is: distinct keys, sorted, one aggregated row per key;
* the German column names of the dataframe are kept, transliterated to ASCII
  (Waehrung, Stueckzahl, Laenderschluessel, Zahlungszweck fuer
  'Zahlungszweck / Wertpapierbezeichnung');
* `withoutLimit` is assigned only when the parsed option is falsy (lines 61-62 have no
  else branch); reading the unbound name at line 243 raises NameError, modelled by
  `Except`.
-/

namespace AWV

/-- Python string comparison as used by pandas when sorting group keys: lexicographic
by Unicode code point. `String.data` is the list of characters and the order on
`List Char` is exactly that lexicographic order. -/
def strLt (a b : String) : Bool := decide (a.data < b.data)

/-- Lexicographic order on tuples of strings (pandas sorts group-key tuples
componentwise, comparing strings as above). -/
def lexLe : List String → List String → Bool
  | [], _ => true
  | _ :: _, [] => false
  | a :: as, b :: bs =>
    if strLt a b then true
    else if strLt b a then false
    else lexLe as bs

/-- Strict lexicographic order on string tuples. -/
def lexLt (x y : List String) : Prop := lexLe x y = true ∧ x ≠ y

/-- Insert an element into a list sorted by le. -/
def insertSorted (le : α → α → Bool) (a : α) : List α → List α
  | [] => [a]
  | b :: bs => if le a b then a :: b :: bs else b :: insertSorted le a bs

/-- Insertion sort; models the ascending key sort that pandas groupby performs
(sort=True is the default for both groupby calls in the script). -/
def sortBy (le : α → α → Bool) : List α → List α
  | [] => []
  | a :: as => insertSorted le a (sortBy le as)

/-- Parsed command-line options that reach the aggregation logic (argparse, app.py
lines 45-51); none means the option was not passed. accountName, queryID and token
only steer the download and are not modelled. -/
structure Args where
  limit : Option ℚ
  withoutLimit : Option ℤ
deriving DecidableEq

/-- app.py lines 56-59: the threshold defaults to 12.5 when the option is absent;
Python truthiness sends an explicit 0 to the default as well. -/
def limitValue (args : Args) : ℚ :=
  match args.limit with
  | none => 12.5
  | some l => if l = 0 then 12.5 else l

/-- app.py lines 61-62: `withoutLimit = 0` is executed only when the parsed option is
falsy (absent or 0). A nonzero value leaves the name unbound, because there is no
else branch; that unbound state is `none` here and reading it is a NameError. -/
def withoutLimitValue (args : Args) : Option ℤ :=
  match args.withoutLimit with
  | none => some 0
  | some w => if w = 0 then some 0 else none

/-- app.py line 69: country code used for the counterparty when the asset is German. -/
def counterpartCountryCodeGermanStocks : String := "IE"

/-- app.py lines 100-119: venue to Kennzahl table for option trades
(831 German derivatives exchanges, 821 foreign ones); absent venues have no entry. -/
def optionExchanges (e : String) : Option ℤ :=
  if e = "AMEX" then some 821
  else if e = "ASX" then some 821
  else if e = "BATS" then some 821
  else if e = "BELFOX" then some 821
  else if e = "BOX" then some 821
  else if e = "CBOE" then some 821
  else if e = "CBOE2" then some 821
  else if e = "DTB" then some 831
  else if e = "CDE" then some 821
  else if e = "EDGX" then some 821
  else if e = "EMERALD" then some 821
  else if e = "EUREX" then some 831
  else if e = "EUREXUK" then some 831
  else if e = "FTA" then some 821
  else if e = "GEMINI" then some 821
  else if e = "HKFE" then some 821
  else none

/-- External fx-rate source: for a currency and a date it returns a closing rate or
none for any kind of failure. -/
def FxSource : Type := String → ℚ → Option ℚ

/-- app.py lines 133-145 (fxRate): 1 for EUR without consulting the source; otherwise
the Yahoo lookup wrapped in try/except, any failure yielding 0. -/
def fxRate (source : FxSource) (currency : String) (date : ℚ) : ℚ :=
  if currency = "EUR" then 1
  else
    match source currency date with
    | some fx => fx
    | none => 0

/-- One raw trade row from the FlexQuery XML, restricted to the columns kept by
neededCols (app.py line 183). isin and putCall are nullable in the feed. -/
structure RawTrade where
  currency : String
  assetCategory : String
  description : String
  isin : Option String
  ibOrderID : String
  tradeDate : ℚ
  buySell : String
  origTradePrice : ℚ
  quantity : ℚ
  proceeds : ℚ
  putCall : Option String
  listingExchange : String
  transactionType : String
deriving DecidableEq

/-- A dataframe row after renaming (app.py 189-192), fx enrichment (211-213), side
translation (216-219), the EUR amount (220) and the NaN fills (223-224). -/
structure Row where
  orderID : String
  Waehrung : String
  Zahlungszweck : String
  ISIN : String
  Transaktion : String
  putCall : String
  listingExchange : String
  Datum : ℚ
  Stueckzahl : ℚ
  BetragNC : ℚ
  fxRate : ℚ
  Betrag : ℚ
deriving DecidableEq

/-- app.py lines 216-219: BUY / BUY (Ca.) become Kauf, SELL / SELL (Ca.) become
Verkauf, anything else passes through unchanged. -/
def translateTransaktion (s : String) : String :=
  if s = "BUY" then "Kauf"
  else if s = "BUY (Ca.)" then "Kauf"
  else if s = "SELL" then "Verkauf"
  else if s = "SELL (Ca.)" then "Verkauf"
  else s

/-- Row-wise enrichment: rename (189-192), fxRate (213), side translation (216-219),
Betrag = proceeds * fxRate / 1000 (220), NaN fill for putCall and ISIN (223-224). -/
def enrichRow (source : FxSource) (t : RawTrade) : Row :=
  let fx := fxRate source t.currency t.tradeDate
  { orderID := t.ibOrderID
    Waehrung := t.currency
    Zahlungszweck := t.description
    ISIN := t.isin.getD ""
    Transaktion := translateTransaktion t.buySell
    putCall := t.putCall.getD ""
    listingExchange := t.listingExchange
    Datum := t.tradeDate
    Stueckzahl := t.quantity
    BetragNC := t.proceeds
    fxRate := fx
    Betrag := t.proceeds * fx / 1000 }

/-- Row filters of app.py line 180 (drop TradeCancel), lines 204-205 (keep the
reporting period) and line 208 (drop CASH rows), in that order. -/
def filterRaw (startDate endDate : ℚ) (raw : List RawTrade) : List RawTrade :=
  (((raw.filter (fun t => t.transactionType != "TradeCancel")).filter
      (fun t => decide (startDate ≤ t.tradeDate))).filter
      (fun t => decide (t.tradeDate < endDate))).filter
      (fun t => t.assetCategory != "CASH")

/-- The normalized, enriched trade rows that enter the order-level groupby. -/
def prepared (source : FxSource) (startDate endDate : ℚ) (raw : List RawTrade) : List Row :=
  (filterRaw startDate endDate raw).map (enrichRow source)

/-- Order-level group key of app.py line 227. -/
structure GKey where
  orderID : String
  Waehrung : String
  Zahlungszweck : String
  ISIN : String
  Transaktion : String
  putCall : String
  listingExchange : String
deriving DecidableEq

/-- Key as the tuple pandas sorts. -/
def GKey.toList (k : GKey) : List String :=
  [k.orderID, k.Waehrung, k.Zahlungszweck, k.ISIN, k.Transaktion, k.putCall, k.listingExchange]

def gKeyOf (r : Row) : GKey :=
  ⟨r.orderID, r.Waehrung, r.Zahlungszweck, r.ISIN, r.Transaktion, r.putCall, r.listingExchange⟩

def gKeyLe (k₁ k₂ : GKey) : Bool := lexLe k₁.toList k₂.toList

/-- One order aggregate (a row of df_g). Laenderschluessel is created later
(app.py 229-237); it starts empty here and is assigned below. -/
structure GRow where
  orderID : String
  Waehrung : String
  Zahlungszweck : String
  ISIN : String
  Transaktion : String
  putCall : String
  listingExchange : String
  Stueckzahl : ℚ
  Datum : ℚ
  Betrag : ℚ
  Laenderschluessel : String
deriving DecidableEq

/-- app.py line 227: groupby on the order key with agg sum / mean / sum. Group keys
come out sorted ascending, one output row per distinct key, each measure aggregated
over the rows of that group. -/
def df_g0 (rows : List Row) : List GRow :=
  (sortBy gKeyLe ((rows.map gKeyOf).dedup)).map (fun k =>
    let grp := rows.filter (fun r => gKeyOf r == k)
    { orderID := k.orderID
      Waehrung := k.Waehrung
      Zahlungszweck := k.Zahlungszweck
      ISIN := k.ISIN
      Transaktion := k.Transaktion
      putCall := k.putCall
      listingExchange := k.listingExchange
      Stueckzahl := (grp.map Row.Stueckzahl).sum
      Datum := (grp.map Row.Datum).sum / (grp.length : ℚ)
      Betrag := (grp.map Row.Betrag).sum
      Laenderschluessel := "" })

/-- app.py line 232: Laenderschluessel is the first two characters of the ISIN
(empty when the ISIN is empty). -/
def setLandFromIsin (r : GRow) : GRow :=
  { r with Laenderschluessel := r.ISIN.take 2 }

/-- app.py line 235: rows whose derived code is DE are remapped to the broker
domicile. -/
def remapLandDE (r : GRow) : GRow :=
  if r.Laenderschluessel = "DE" then
    { r with Laenderschluessel := counterpartCountryCodeGermanStocks }
  else r

/-- df_g with the country column filled (app.py 227-237). -/
def df_g (rows : List Row) : List GRow :=
  ((df_g0 rows).map setLandFromIsin).map remapLandDE

/-- Monthly group key of app.py line 240, in the column order of the groupby call. -/
structure MKey where
  Waehrung : String
  Zahlungszweck : String
  Laenderschluessel : String
  ISIN : String
  putCall : String
  listingExchange : String
  Transaktion : String
deriving DecidableEq

def MKey.toList (k : MKey) : List String :=
  [k.Waehrung, k.Zahlungszweck, k.Laenderschluessel, k.ISIN, k.putCall, k.listingExchange,
   k.Transaktion]

def mKeyOf (r : GRow) : MKey :=
  ⟨r.Waehrung, r.Zahlungszweck, r.Laenderschluessel, r.ISIN, r.putCall, r.listingExchange,
   r.Transaktion⟩

def mKeyLe (k₁ k₂ : MKey) : Bool := lexLe k₁.toList k₂.toList

/-- One monthly aggregate (a row of df_m). Belegart and Kennzahl are created later
(app.py 248-275); they start as 0 and missing here and are assigned below. -/
structure MRow where
  Waehrung : String
  Zahlungszweck : String
  Laenderschluessel : String
  ISIN : String
  putCall : String
  listingExchange : String
  Transaktion : String
  Stueckzahl : ℚ
  Betrag : ℚ
  Belegart : ℚ
  Kennzahl : Option ℚ
deriving DecidableEq

/-- Monthly key of a monthly aggregate row. -/
def mRowKey (r : MRow) : MKey :=
  ⟨r.Waehrung, r.Zahlungszweck, r.Laenderschluessel, r.ISIN, r.putCall, r.listingExchange,
   r.Transaktion⟩

/-- app.py line 240: the monthly groupby, keys ascending, sum of Stueckzahl and
Betrag per group. -/
def df_m_grouped (g : List GRow) : List MRow :=
  (sortBy mKeyLe ((g.map mKeyOf).dedup)).map (fun k =>
    let grp := g.filter (fun r => mKeyOf r == k)
    { Waehrung := k.Waehrung
      Zahlungszweck := k.Zahlungszweck
      Laenderschluessel := k.Laenderschluessel
      ISIN := k.ISIN
      putCall := k.putCall
      listingExchange := k.listingExchange
      Transaktion := k.Transaktion
      Stueckzahl := (grp.map GRow.Stueckzahl).sum
      Betrag := (grp.map GRow.Betrag).sum
      Belegart := 0
      Kennzahl := none })

/-- Monthly aggregates that survive the threshold, app.py lines 243-244, for a bound
withoutLimit value w: filtered when w < 1, untouched otherwise. -/
def survivors (w : ℤ) (limit : ℚ) (g : List GRow) : List MRow :=
  if w < 1 then (df_m_grouped g).filter (fun r => decide (limit ≤ |r.Betrag|))
  else df_m_grouped g

/-- app.py lines 243-244 with the unbound-name case: evaluating `withoutLimit < 1`
raises NameError when the name was never assigned (see withoutLimitValue). -/
def df_m_limited (w : Option ℤ) (limit : ℚ) (g : List GRow) : Except String (List MRow) :=
  match w with
  | none => .error "NameError: name withoutLimit is not defined"
  | some w => .ok (survivors w limit g)

/-- app.py line 248: Belegart 3 (incoming payment) for every row. -/
def setBelegart3 (r : MRow) : MRow := { r with Belegart := 3 }

/-- app.py line 249: purchases become Belegart 4 (outgoing payment). -/
def setBelegartKauf (r : MRow) : MRow :=
  if r.Transaktion = "Kauf" then { r with Belegart := 4 } else r

/-- True when every option row's listing exchange has an optionExchanges entry. When
one is missing, the apply at app.py line 255 raises KeyError, the exception is caught
at 256-258 (a message is printed) and the whole Kennzahl assignment is skipped. -/
def optionLookupOK (rows : List MRow) : Bool :=
  rows.all (fun r => r.putCall == "" || (optionExchanges r.listingExchange).isSome)

/-- Per-row venue Kennzahl for option rows, guarded by the all-or-nothing flag. -/
def optAssign (ok : Bool) (r : MRow) : MRow :=
  if ok ∧ r.putCall ≠ "" then
    { r with Kennzahl := (optionExchanges r.listingExchange).map (fun z => (z : ℚ)) }
  else r

/-- app.py line 255 inside its try/except: option rows get the venue Kennzahl, but
only if the lookup succeeds for all of them; otherwise nothing is assigned. -/
def assignOptionKennzahl (rows : List MRow) : List MRow :=
  if optionLookupOK rows then rows.map (optAssign true) else rows

/-- app.py line 272: every row whose first two ISIN characters are neither DE nor
empty gets Kennzahl 104; the mask does not exclude rows that already carry a venue
Kennzahl. -/
def setKennzahl104 (r : MRow) : MRow :=
  if r.ISIN.take 2 ≠ "DE" ∧ r.ISIN.take 2 ≠ "" then { r with Kennzahl := some 104 } else r

/-- app.py line 275: every row whose first two ISIN characters are DE gets
Kennzahl 258, again without excluding rows already classified. -/
def setKennzahl258 (r : MRow) : MRow :=
  if r.ISIN.take 2 = "DE" then { r with Kennzahl := some 258 } else r

/-- app.py line 277: absolute quantity. -/
def absStueckzahl (r : MRow) : MRow := { r with Stueckzahl := |r.Stueckzahl| }

/-- One row of the exported CSV, fields in the output column order of app.py
lines 284-292. Kennzahl is none when the column holds NaN for that row. -/
structure OutputRecord where
  Belegart : ℚ
  Kennzahl : Option ℚ
  Zahlungszweck : String
  Laenderschluessel : String
  Betrag : ℚ
  ISIN : String
  Stueckzahl : ℚ
  Waehrung : String
deriving DecidableEq

/-- app.py lines 284-292: column selection into the output order. -/
def toOutput (r : MRow) : OutputRecord :=
  ⟨r.Belegart, r.Kennzahl, r.Zahlungszweck, r.Laenderschluessel, r.Betrag, r.ISIN,
   r.Stueckzahl, r.Waehrung⟩

/-- Round half to even (numpy semantics of df.round()), computed from the reduced
numerator and denominator with floor division and floor remainder. -/
def roundHalfEven (q : ℚ) : ℤ :=
  let n := q.num
  let d := (q.den : ℤ)
  let f := Int.fdiv n d
  let r := Int.fmod n d
  if 2 * r < d then f
  else if d < 2 * r then f + 1
  else if f % 2 = 0 then f else f + 1

/-- app.py line 298 (df_m.round()) together with lines 301-313: rounding the numeric
columns; a missing Kennzahl (NaN) stays missing. The astype conversion only changes
the dtype, never a value, and is skipped entirely (its exception is caught) when a
Kennzahl is missing, so values are the same either way. -/
def roundRecord (r : OutputRecord) : OutputRecord :=
  { r with
    Belegart := (roundHalfEven r.Belegart : ℚ)
    Kennzahl := r.Kennzahl.map (fun k => (roundHalfEven k : ℚ))
    Betrag := (roundHalfEven r.Betrag : ℚ)
    Stueckzahl := (roundHalfEven r.Stueckzahl : ℚ) }

/-- app.py lines 320-321: absolute Betrag and Stueckzahl on the exported frame. -/
def absRecord (r : OutputRecord) : OutputRecord :=
  { r with Betrag := |r.Betrag|, Stueckzahl := |r.Stueckzahl| }

/-- Everything that happens to one surviving monthly row after the threshold:
Belegart (248-249), venue Kennzahl under the all-or-nothing flag (255), the ISIN
Kennzahl overwrites (272-275), absolute quantity (277), column order (284-292),
rounding (298-313) and the final absolute values (320-321). -/
def finishRow (ok : Bool) (r : MRow) : OutputRecord :=
  absRecord (roundRecord (toOutput (absStueckzahl (setKennzahl258 (setKennzahl104
    (optAssign ok (setBelegartKauf (setBelegart3 r))))))))

/-- The monthly stage from the grouped order aggregates to the CSV rows, app.py
lines 240-328 in source order. -/
def monthlyStage (w : Option ℤ) (limit : ℚ) (g : List GRow) :
    Except String (List OutputRecord) :=
  (df_m_limited w limit g).map (fun m =>
    let m := (m.map setBelegart3).map setBelegartKauf
    let m := assignOptionKennzahl m
    let m := (m.map setKennzahl104).map setKennzahl258
    let m := m.map absStueckzahl
    ((m.map toOutput).map roundRecord).map absRecord)

/-- The whole pipeline from raw FlexQuery rows to the CSV rows, in the order they
are written (to_csv at line 328 keeps the dataframe row order). -/
def runPipeline (args : Args) (source : FxSource) (startDate endDate : ℚ)
    (raw : List RawTrade) : Except String (List OutputRecord) :=
  monthlyStage (withoutLimitValue args) (limitValue args)
    (df_g (prepared source startDate endDate raw))

/-- Integrality and sign shape of one output row: the four numeric columns hold
integers (classificationCode is present) and amount and quantity are non-negative. -/
def intOutput (r : OutputRecord) : Prop :=
  r.Belegart.den = 1 ∧
  (match r.Kennzahl with
   | some k => k.den = 1
   | none => False) ∧
  r.Betrag.den = 1 ∧ 0 ≤ r.Betrag ∧ r.Stueckzahl.den = 1 ∧ 0 ≤ r.Stueckzahl

/-- Order key of an already aggregated row (same fields as gKeyOf). -/
def gKeyOfG (r : GRow) : GKey :=
  ⟨r.orderID, r.Waehrung, r.Zahlungszweck, r.ISIN, r.Transaktion, r.putCall, r.listingExchange⟩

/-- An fx source on which every lookup fails. -/
def failSource : FxSource := fun _ _ => none

/-- An option trade with a CBOE listing and a US ISIN: per the venue table its
Kennzahl would be 821, but the ISIN overwrite at app.py line 272 turns it into 104. -/
def tC1 : RawTrade :=
  { currency := "EUR", assetCategory := "OPT", description := "AAPL OPT",
    isin := some "US0378331005", ibOrderID := "11", tradeDate := 5, buySell := "SELL",
    origTradePrice := 0, quantity := 10, proceeds := 20000, putCall := some "C",
    listingExchange := "CBOE", transactionType := "Trade" }

/-- An option trade on a venue that is missing from optionExchanges and has no ISIN:
the lookup KeyError is caught and the row leaves the pipeline unclassified. -/
def tC8 : RawTrade :=
  { currency := "EUR", assetCategory := "OPT", description := "CL OPT",
    isin := none, ibOrderID := "12", tradeDate := 6, buySell := "SELL",
    origTradePrice := 0, quantity := 4, proceeds := 20000, putCall := some "C",
    listingExchange := "NYMEX", transactionType := "Trade" }

/-- A plain EUR trade without ISIN and without option flag (e.g. a future):
no Kennzahl rule matches it. -/
def tFut : RawTrade :=
  { currency := "EUR", assetCategory := "FUT", description := "FGBL",
    isin := none, ibOrderID := "13", tradeDate := 7, buySell := "BUY",
    origTradePrice := 0, quantity := 10, proceeds := -20000, putCall := none,
    listingExchange := "EUREX", transactionType := "Trade" }

/-- A non-EUR trade used to exercise the fx-failure path. -/
def tUSD : RawTrade :=
  { currency := "USD", assetCategory := "STK", description := "ACME",
    isin := some "US0001", ibOrderID := "14", tradeDate := 8, buySell := "SELL",
    origTradePrice := 0, quantity := 3, proceeds := 5000, putCall := none,
    listingExchange := "NYSE", transactionType := "Trade" }

/-- A single enriched row used to exercise the country-code derivation. -/
def rowUS : Row :=
  { orderID := "7", Waehrung := "USD", Zahlungszweck := "ACME", ISIN := "US0001",
    Transaktion := "Kauf", putCall := "", listingExchange := "NYSE", Datum := 5,
    Stueckzahl := 10, BetragNC := 20000, fxRate := 1, Betrag := 20 }

/-- A single order aggregate used to exercise the monthly stage. -/
def gRowUS : GRow :=
  { orderID := "7", Waehrung := "USD", Zahlungszweck := "ACME", ISIN := "US0001",
    Transaktion := "Kauf", putCall := "", listingExchange := "NYSE", Stueckzahl := 10,
    Datum := 5, Betrag := 20, Laenderschluessel := "US" }

/-- Inserting into a list is a permutation of consing. -/
theorem perm_insertSorted (le : α → α → Bool) (a : α) :
    ∀ l : List α, (insertSorted le a l).Perm (a :: l)
  | [] => List.Perm.refl _
  | b :: bs => by
    unfold insertSorted
    by_cases h : le a b = true
    · rw [if_pos h]
    · rw [if_neg h]
      exact ((perm_insertSorted le a bs).cons b).trans (List.Perm.swap a b bs)

/-- Sorting is a permutation. -/
theorem perm_sortBy (le : α → α → Bool) : ∀ l : List α, (sortBy le l).Perm l
  | [] => List.Perm.refl _
  | a :: as => (perm_insertSorted le a (sortBy le as)).trans ((perm_sortBy le as).cons a)

/-- Inserting into a le-sorted list keeps it le-sorted, for a total transitive le. -/
theorem pairwise_insertSorted (le : α → α → Bool)
    (htot : ∀ x y, le x y = true ∨ le y x = true)
    (htrans : ∀ x y z, le x y = true → le y z = true → le x z = true)
    (a : α) {l : List α} (h : l.Pairwise (fun x y => le x y = true)) :
    (insertSorted le a l).Pairwise (fun x y => le x y = true) := by
  induction l with
  | nil => simp [insertSorted]
  | cons b bs ih =>
    rw [List.pairwise_cons] at h
    unfold insertSorted
    by_cases hab : le a b = true
    · rw [if_pos hab]
      refine List.Pairwise.cons ?_ (List.Pairwise.cons h.1 h.2)
      intro x hx
      rcases List.mem_cons.mp hx with hx | hx
      · rw [hx]; exact hab
      · exact htrans a b x hab (h.1 x hx)
    · rw [if_neg hab]
      refine List.Pairwise.cons ?_ (ih h.2)
      intro x hx
      have hx' := (perm_insertSorted le a bs).mem_iff.mp hx
      rcases List.mem_cons.mp hx' with hx' | hx'
      · rcases htot a b with hc | hc
        · exact absurd hc hab
        · rw [hx']; exact hc
      · exact h.1 x hx'

/-- sortBy produces a le-sorted list, for a total transitive le. -/
theorem pairwise_sortBy (le : α → α → Bool)
    (htot : ∀ x y, le x y = true ∨ le y x = true)
    (htrans : ∀ x y z, le x y = true → le y z = true → le x z = true) :
    ∀ l : List α, (sortBy le l).Pairwise (fun x y => le x y = true)
  | [] => List.Pairwise.nil
  | a :: as => pairwise_insertSorted le htot htrans a (pairwise_sortBy le htot htrans as)

/-- strLt is transitive. -/
theorem strLt_trans {a b c : String} (h₁ : strLt a b = true) (h₂ : strLt b c = true) :
    strLt a c = true := by
  simp only [strLt, decide_eq_true_eq] at *
  exact lt_trans h₁ h₂

/-- Two strings neither of which is below the other are equal. -/
theorem strLt_eq_of_false {a b : String} (h : strLt a b = false) (h' : strLt b a = false) :
    a = b := by
  simp only [strLt, decide_eq_false_iff_not] at h h'
  exact String.ext (le_antisymm (not_lt.mp h') (not_lt.mp h))

/-- lexLe is total. -/
theorem lexLe_total : ∀ x y : List String, lexLe x y = true ∨ lexLe y x = true
  | [], _ => Or.inl rfl
  | _ :: _, [] => Or.inr rfl
  | a :: as, b :: bs => by
    unfold lexLe
    by_cases hab : strLt a b = true
    · exact Or.inl (by rw [if_pos hab])
    · by_cases hba : strLt b a = true
      · exact Or.inr (by rw [if_pos hba])
      · rw [if_neg hab, if_neg hba, if_neg hba, if_neg hab]
        exact lexLe_total as bs

/-- lexLe is transitive. -/
theorem lexLe_trans : ∀ x y z : List String,
    lexLe x y = true → lexLe y z = true → lexLe x z = true
  | [], _, _, _, _ => rfl
  | a :: as, [], _, hxy, _ => by simp [lexLe] at hxy
  | _ :: _, _ :: _, [], _, hyz => by simp [lexLe] at hyz
  | a :: as, b :: bs, c :: cs, hxy, hyz => by
    unfold lexLe at hxy hyz ⊢
    by_cases hab : strLt a b = true
    · rw [if_pos hab] at hxy
      by_cases hbc : strLt b c = true
      · rw [if_pos (strLt_trans hab hbc)]
      · by_cases hcb : strLt c b = true
        · rw [if_neg hbc, if_pos hcb] at hyz
          exact absurd hyz (by simp)
        · have hbc' := strLt_eq_of_false (Bool.eq_false_iff.mpr hbc) (Bool.eq_false_iff.mpr hcb)
          rw [hbc'] at hab
          rw [if_pos hab]
    · by_cases hba : strLt b a = true
      · rw [if_neg hab, if_pos hba] at hxy
        exact absurd hxy (by simp)
      · have hab' := strLt_eq_of_false (Bool.eq_false_iff.mpr hab) (Bool.eq_false_iff.mpr hba)
        subst hab'
        rw [if_neg hab, if_neg hba] at hxy
        by_cases hac : strLt a c = true
        · rw [if_pos hac]
        · by_cases hca : strLt c a = true
          · rw [if_neg hac, if_pos hca] at hyz
            exact absurd hyz (by simp)
          · rw [if_neg hac, if_neg hca] at hyz ⊢
            exact lexLe_trans as bs cs hxy hyz

/-- strLt is asymmetric. -/
theorem strLt_asymm {a b : String} (h : strLt a b = true) : strLt b a = false := by
  simp only [strLt, decide_eq_true_eq] at h
  simp only [strLt, decide_eq_false_iff_not]
  exact lt_asymm h

/-- lexLe is antisymmetric. -/
theorem lexLe_antisymm : ∀ x y : List String,
    lexLe x y = true → lexLe y x = true → x = y
  | [], [], _, _ => rfl
  | [], _ :: _, _, hyx => by simp [lexLe] at hyx
  | _ :: _, [], hxy, _ => by simp [lexLe] at hxy
  | a :: as, b :: bs, hxy, hyx => by
    unfold lexLe at hxy hyx
    by_cases hab : strLt a b = true
    · rw [if_neg (by simp [strLt_asymm hab]), if_pos hab] at hyx
      exact absurd hyx (by simp)
    · by_cases hba : strLt b a = true
      · rw [if_neg hab, if_pos hba] at hxy
        exact absurd hxy (by simp)
      · have hab' := strLt_eq_of_false (Bool.eq_false_iff.mpr hab) (Bool.eq_false_iff.mpr hba)
        subst hab'
        rw [if_neg hab, if_neg hba] at hxy hyx
        rw [lexLe_antisymm as bs hxy hyx]

/-- The monthly key order is total. -/
theorem mKeyLe_total : ∀ k₁ k₂ : MKey, mKeyLe k₁ k₂ = true ∨ mKeyLe k₂ k₁ = true :=
  fun k₁ k₂ => lexLe_total k₁.toList k₂.toList

/-- The monthly key order is transitive. -/
theorem mKeyLe_trans : ∀ k₁ k₂ k₃ : MKey,
    mKeyLe k₁ k₂ = true → mKeyLe k₂ k₃ = true → mKeyLe k₁ k₃ = true :=
  fun k₁ k₂ k₃ => lexLe_trans k₁.toList k₂.toList k₃.toList

/-- The order key order is total. -/
theorem gKeyLe_total : ∀ k₁ k₂ : GKey, gKeyLe k₁ k₂ = true ∨ gKeyLe k₂ k₁ = true :=
  fun k₁ k₂ => lexLe_total k₁.toList k₂.toList

/-- The order key order is transitive. -/
theorem gKeyLe_trans : ∀ k₁ k₂ k₃ : GKey,
    gKeyLe k₁ k₂ = true → gKeyLe k₂ k₃ = true → gKeyLe k₁ k₃ = true :=
  fun k₁ k₂ k₃ => lexLe_trans k₁.toList k₂.toList k₃.toList

/-- A monthly key is determined by its tuple. -/
theorem mKey_toList_inj {k₁ k₂ : MKey} (h : k₁.toList = k₂.toList) : k₁ = k₂ := by
  cases k₁
  cases k₂
  simp only [MKey.toList, List.cons.injEq, and_true] at h
  obtain ⟨h1, h2, h3, h4, h5, h6, h7⟩ := h
  subst h1 h2 h3 h4 h5 h6 h7
  rfl

/-- Filtering a duplicate-free list for one value gives that value or nothing. -/
theorem filter_beq_nodup [DecidableEq α] {l : List α} (h : l.Nodup) (k : α) :
    l.filter (fun x => x == k) = if k ∈ l then [k] else [] := by
  induction l with
  | nil => simp
  | cons a t ih =>
    rw [List.nodup_cons] at h
    rw [List.filter_cons]
    by_cases hak : a = k
    · subst hak
      rw [if_pos (by simp), if_pos (List.mem_cons_self a t)]
      rw [ih h.2, if_neg h.1]
    · rw [if_neg (by simp [hak]), ih h.2]
      have hiff : (k ∈ a :: t) ↔ k ∈ t := by
        constructor
        · intro hm
          rcases List.mem_cons.mp hm with he | hm
          · exact absurd he.symm hak
          · exact hm
        · exact List.mem_cons_of_mem a
      by_cases hk : k ∈ t
      · rw [if_pos hk, if_pos (hiff.mpr hk)]
      · rw [if_neg hk, if_neg (fun hm => hk (hiff.mp hm))]

/-- The sorted deduplicated key list has no duplicates. -/
theorem nodup_sortBy_dedup [DecidableEq α] (le : α → α → Bool) (l : List α) :
    (sortBy le l.dedup).Nodup :=
  (perm_sortBy le l.dedup).symm.nodup (List.nodup_dedup l)

/-- Membership in the sorted deduplicated key list. -/
theorem mem_sortBy_dedup [DecidableEq α] (le : α → α → Bool) (l : List α) (k : α) :
    k ∈ sortBy le l.dedup ↔ k ∈ l :=
  ((perm_sortBy le l.dedup).mem_iff).trans (List.mem_dedup)

/-- setBelegart3 and setBelegartKauf leave every column except Belegart unchanged. -/
theorem setBelegartKauf_fields (r : MRow) :
    (setBelegartKauf r).putCall = r.putCall ∧
    (setBelegartKauf r).listingExchange = r.listingExchange ∧
    (setBelegartKauf r).ISIN = r.ISIN ∧
    (setBelegartKauf r).Kennzahl = r.Kennzahl := by
  unfold setBelegartKauf
  split <;> exact ⟨rfl, rfl, rfl, rfl⟩

/-- optAssign changes only Kennzahl. -/
theorem optAssign_fields (b : Bool) (r : MRow) :
    (optAssign b r).ISIN = r.ISIN ∧ (optAssign b r).putCall = r.putCall ∧
    (optAssign b r).listingExchange = r.listingExchange := by
  unfold optAssign
  split <;> exact ⟨rfl, rfl, rfl⟩

/-- setKennzahl104 changes only Kennzahl. -/
theorem setKennzahl104_fields (r : MRow) :
    (setKennzahl104 r).ISIN = r.ISIN ∧ (setKennzahl104 r).Kennzahl =
      (if r.ISIN.take 2 ≠ "DE" ∧ r.ISIN.take 2 ≠ "" then some 104 else r.Kennzahl) := by
  unfold setKennzahl104
  by_cases h : r.ISIN.take 2 ≠ "DE" ∧ r.ISIN.take 2 ≠ ""
  · rw [if_pos h, if_pos h]
    exact ⟨rfl, rfl⟩
  · rw [if_neg h, if_neg h]
    exact ⟨rfl, rfl⟩

/-- setKennzahl258 changes only Kennzahl. -/
theorem setKennzahl258_fields (r : MRow) :
    (setKennzahl258 r).ISIN = r.ISIN ∧ (setKennzahl258 r).Kennzahl =
      (if r.ISIN.take 2 = "DE" then some 258 else r.Kennzahl) := by
  unfold setKennzahl258
  by_cases h : r.ISIN.take 2 = "DE"
  · rw [if_pos h, if_pos h]
    exact ⟨rfl, rfl⟩
  · rw [if_neg h, if_neg h]
    exact ⟨rfl, rfl⟩

/-- The try/except around the venue lookup, per row: the whole assignment happens
exactly when every option row's exchange is known. -/
theorem assignOptionKennzahl_eq (l : List MRow) :
    assignOptionKennzahl l = l.map (optAssign (optionLookupOK l)) := by
  unfold assignOptionKennzahl
  by_cases h : optionLookupOK l = true
  · rw [if_pos h, h]
  · rw [if_neg h, Bool.eq_false_iff.mpr h]
    have hmap : optAssign false = fun r => r := by
      funext r
      unfold optAssign
      simp
    rw [hmap]
    simp

/-- The Belegart assignments do not change which rows are option rows. -/
theorem optionLookupOK_belegart (l : List MRow) :
    optionLookupOK ((l.map setBelegart3).map setBelegartKauf) = optionLookupOK l := by
  unfold optionLookupOK
  rw [List.all_map, List.all_map]
  congr 1
  funext r
  have h := setBelegartKauf_fields (setBelegart3 r)
  simp only [Function.comp_apply, h.1, h.2.1]
  rfl

/-- The composed per-row maps of the monthly stage collapse to finishRow. -/
theorem finish_maps (b : Bool) (l : List MRow) :
    List.map absRecord (List.map roundRecord (List.map toOutput (List.map absStueckzahl
      (List.map setKennzahl258 (List.map setKennzahl104 (List.map (optAssign b)
        (List.map setBelegartKauf (List.map setBelegart3 l)))))))) = l.map (finishRow b) := by
  induction l with
  | nil => rfl
  | cons r t ih =>
    simp only [List.map_cons]
    rw [ih]
    rfl

/-- The monthly stage on a bound withoutLimit value is the per-row finish of the
surviving monthly aggregates, in their original (sorted) order. -/
theorem monthlyStage_ok (w : ℤ) (L : ℚ) (g : List GRow) :
    monthlyStage (some w) L g =
      .ok ((survivors w L g).map (finishRow (optionLookupOK (survivors w L g)))) := by
  have e1 : monthlyStage (some w) L g = Except.ok
      (List.map absRecord (List.map roundRecord (List.map toOutput (List.map absStueckzahl
        (List.map setKennzahl258 (List.map setKennzahl104 (assignOptionKennzahl
          (List.map setBelegartKauf (List.map setBelegart3 (survivors w L g)))))))))) := rfl
  rw [e1, assignOptionKennzahl_eq, optionLookupOK_belegart, finish_maps]

/-- Rounding an integer gives that integer back. -/
theorem roundHalfEven_intCast (n : ℤ) : roundHalfEven ((n : ℤ) : ℚ) = n := by
  unfold roundHalfEven
  simp [Rat.num_intCast, Rat.den_intCast, Int.fdiv_one, Int.fmod_one]

/-- The normalizer on a single raw trade that passes all filters. -/
theorem prepared_singleton (src : FxSource) (s e : ℚ) (t : RawTrade)
    (h1 : t.transactionType ≠ "TradeCancel") (h2 : s ≤ t.tradeDate)
    (h3 : t.tradeDate < e) (h4 : t.assetCategory ≠ "CASH") :
    prepared src s e [t] = [enrichRow src t] := by
  unfold prepared filterRaw
  simp [List.filter_singleton, h1, h2, h3, h4]

/-- The order-level groupby on a single row: one aggregate carrying the row measures
and the derived country code (fields in GRow declaration order). -/
theorem df_g_singleton (r : Row) :
    df_g [r] = [⟨r.orderID, r.Waehrung, r.Zahlungszweck, r.ISIN, r.Transaktion,
      r.putCall, r.listingExchange, r.Stueckzahl, r.Datum, r.Betrag,
      if r.ISIN.take 2 = "DE" then counterpartCountryCodeGermanStocks
      else r.ISIN.take 2⟩] := by
  by_cases h : r.ISIN.take 2 = "DE" <;>
    simp [df_g, df_g0, sortBy, insertSorted, setLandFromIsin, remapLandDE, h,
      List.filter_singleton, gKeyOf]

/-- The monthly groupby on a single order aggregate (fields in MRow declaration
order; Belegart and Kennzahl not yet assigned). -/
theorem df_m_grouped_singleton (x : GRow) :
    df_m_grouped [x] = [⟨x.Waehrung, x.Zahlungszweck, x.Laenderschluessel, x.ISIN,
      x.putCall, x.listingExchange, x.Transaktion, x.Stueckzahl, x.Betrag, 0, none⟩] := by
  simp [df_m_grouped, sortBy, insertSorted, List.filter_singleton, mKeyOf]

/-- The monthly aggregates come out of the groupby sorted strictly ascending in the
lexicographic order of their group keys. -/
theorem pairwise_df_m_grouped (g : List GRow) :
    (df_m_grouped g).Pairwise (fun r s => lexLt (mRowKey r).toList (mRowKey s).toList) := by
  unfold df_m_grouped
  rw [List.pairwise_map]
  have hs := pairwise_sortBy mKeyLe mKeyLe_total mKeyLe_trans ((g.map mKeyOf).dedup)
  have hn : (sortBy mKeyLe ((g.map mKeyOf).dedup)).Nodup := nodup_sortBy_dedup mKeyLe _
  refine (hs.and hn).imp ?_
  intro a b hab
  exact ⟨hab.1, fun hc => hab.2 (mKey_toList_inj hc)⟩

/-- C2 (code bug evidence): supplying a nonzero withoutLimit value leaves the Python
name withoutLimit unbound, because lines 61-62 have no else branch, so the threshold
guard at line 243 raises NameError instead of producing a report with all monthly
aggregates. The binding resolves to the unbound state and the pipeline errors even on
an empty trade list. -/
theorem C2_withoutLimit_nameError :
    withoutLimitValue ⟨none, some 1⟩ = none ∧
    runPipeline ⟨none, some 1⟩ failSource 0 100 [] =
      .error "NameError: name withoutLimit is not defined" :=
  ⟨rfl, rfl⟩

/-- C3: with threshold enforcement enabled (withoutLimit bound to 0), a monthly
aggregate survives if and only if it is one of the monthly groupby rows, built from
all order aggregates, and its absolute pre-rounding monthly amount reaches the limit;
the limit defaults to 12.5 when the option is absent. The filter runs on the rows of
the monthly groupby only: trades and order aggregates are never filtered by amount. -/
theorem C3_monthly_threshold (L : ℚ) (g : List GRow) (r : MRow) :
    (r ∈ survivors 0 L g ↔ r ∈ df_m_grouped g ∧ L ≤ |r.Betrag|) ∧
    (∀ wl : Option ℤ, limitValue ⟨none, wl⟩ = 12.5) := by
  constructor
  · unfold survivors
    rw [if_pos (by norm_num)]
    simp [List.mem_filter]
  · intro wl
    rfl

/-- C5: for an EUR trade the fx resolver returns exactly 1, for every possible
external source (so no lookup can influence the result), the enriched row records
rate 1, and its amountEur is proceeds / 1000. -/
theorem C5_eur_rate (source : FxSource) (d : ℚ) (t : RawTrade)
    (ht : t.currency = "EUR") :
    (∀ src : FxSource, fxRate src "EUR" d = 1) ∧
    (enrichRow source t).fxRate = 1 ∧
    (enrichRow source t).Betrag = t.proceeds / 1000 := by
  have h1 : fxRate source t.currency t.tradeDate = 1 := by
    rw [ht]
    unfold fxRate
    simp
  refine ⟨fun src => by unfold fxRate; simp, h1, ?_⟩
  show t.proceeds * fxRate source t.currency t.tradeDate / 1000 = t.proceeds / 1000
  rw [h1, mul_one]

/-- C5 witness at the concrete EUR trade tFut. -/
theorem C5_eur_rate_witness :
    (∀ src : FxSource, fxRate src "EUR" 0 = 1) ∧
    (enrichRow failSource tFut).fxRate = 1 ∧
    (enrichRow failSource tFut).Betrag = tFut.proceeds / 1000 :=
  C5_eur_rate failSource 0 tFut rfl

/-- C6: when the external lookup fails for a non-EUR trade, the resolver returns 0
rather than raising, the trade's converted amountEur becomes 0, and the pipeline
still runs to a normal result on every input under the default options. -/
theorem C6_fx_failure (source : FxSource) (t : RawTrade)
    (hc : t.currency ≠ "EUR") (hs : source t.currency t.tradeDate = none) :
    fxRate source t.currency t.tradeDate = 0 ∧
    (enrichRow source t).Betrag = 0 ∧
    ∀ (s e : ℚ) (raw : List RawTrade), ∃ out,
      runPipeline ⟨none, none⟩ source s e raw = .ok out := by
  have h0 : fxRate source t.currency t.tradeDate = 0 := by
    unfold fxRate
    rw [if_neg hc, hs]
  refine ⟨h0, ?_, ?_⟩
  · show t.proceeds * fxRate source t.currency t.tradeDate / 1000 = 0
    rw [h0, mul_zero, zero_div]
  · intro s e raw
    exact ⟨_, monthlyStage_ok 0 _ _⟩

/-- C6 witness at the concrete USD trade tUSD with the always-failing source. -/
theorem C6_fx_failure_witness :
    fxRate failSource tUSD.currency tUSD.tradeDate = 0 ∧
    (enrichRow failSource tUSD).Betrag = 0 ∧
    ∀ (s e : ℚ) (raw : List RawTrade), ∃ out,
      runPipeline ⟨none, none⟩ failSource s e raw = .ok out :=
  C6_fx_failure failSource tUSD (by decide) rfl

/-- C7: every order aggregate's country code is the first two characters of its ISIN
(the empty string for an empty ISIN), except that a derived DE is replaced by the
fixed broker domicile constant. -/
theorem C7_country_code (rows : List Row) (a : GRow) (ha : a ∈ df_g rows) :
    a.Laenderschluessel =
      if a.ISIN.take 2 = "DE" then counterpartCountryCodeGermanStocks
      else a.ISIN.take 2 := by
  unfold df_g at ha
  rcases List.mem_map.mp ha with ⟨b, hb, rfl⟩
  rcases List.mem_map.mp hb with ⟨c, _, rfl⟩
  unfold remapLandDE setLandFromIsin
  by_cases h : c.ISIN.take 2 = "DE" <;> simp [h]

/-- C7 witness: the aggregate of the single row rowUS carries country code US. -/
theorem C7_country_code_witness :
    gRowUS.Laenderschluessel =
      if gRowUS.ISIN.take 2 = "DE" then counterpartCountryCodeGermanStocks
      else gRowUS.ISIN.take 2 :=
  C7_country_code [rowUS] gRowUS (by
    rw [df_g_singleton]
    have ht : ("US0001" : String).take 2 = "US" := rfl
    simp [rowUS, gRowUS, ht])

/-- C10: the rows written to the CSV are the image, in order, of the surviving
monthly aggregates, and those aggregates are pairwise strictly ascending in the
lexicographic order of the monthly group key (Waehrung, Zahlungszweck,
Laenderschluessel, ISIN, putCall, listingExchange, Transaktion): both groupby stages
sort their keys, the threshold filter preserves that order, and every later step maps
rows in place, so the output row order is fully determined by the keys. -/
theorem C10_output_order (w : ℤ) (L : ℚ) (g : List GRow) :
    (survivors w L g).Pairwise
      (fun r s => lexLt (mRowKey r).toList (mRowKey s).toList) ∧
    monthlyStage (some w) L g =
      .ok ((survivors w L g).map (finishRow (optionLookupOK (survivors w L g)))) := by
  refine ⟨?_, monthlyStage_ok w L g⟩
  unfold survivors
  by_cases hw : w < 1
  · rw [if_pos hw]
    exact (pairwise_df_m_grouped g).filter _
  · rw [if_neg hw]
    exact pairwise_df_m_grouped g

/-- C4: order aggregation conserves totals. For every order-aggregate key, the sums
of quantity and of amountEur over the aggregates produced for that key equal the
corresponding sums over the enriched trade rows carrying that key (both sides are
zero when the key does not occur). -/
theorem C4_conservation (rows : List Row) (k : GKey) :
    (((df_g rows).filter (fun a => gKeyOfG a == k)).map GRow.Stueckzahl).sum =
      ((rows.filter (fun r => gKeyOf r == k)).map Row.Stueckzahl).sum ∧
    (((df_g rows).filter (fun a => gKeyOfG a == k)).map GRow.Betrag).sum =
      ((rows.filter (fun r => gKeyOf r == k)).map Row.Betrag).sum := by
  have hkey : ∀ x : GRow, gKeyOfG (remapLandDE (setLandFromIsin x)) = gKeyOfG x := by
    intro x
    unfold remapLandDE setLandFromIsin gKeyOfG
    split <;> rfl
  have hstz : ∀ x : GRow, (remapLandDE (setLandFromIsin x)).Stueckzahl = x.Stueckzahl := by
    intro x
    unfold remapLandDE setLandFromIsin
    split <;> rfl
  have hbet : ∀ x : GRow, (remapLandDE (setLandFromIsin x)).Betrag = x.Betrag := by
    intro x
    unfold remapLandDE setLandFromIsin
    split <;> rfl
  have hdfg : df_g rows = (df_g0 rows).map (fun x => remapLandDE (setLandFromIsin x)) := by
    unfold df_g
    rw [List.map_map]
    rfl
  have hfun1 : ((fun a : GRow => gKeyOfG a == k) ∘ (fun x => remapLandDE (setLandFromIsin x)))
      = (fun a : GRow => gKeyOfG a == k) := by
    funext x
    simp [Function.comp, hkey]
  have hfun2 : (GRow.Stueckzahl ∘ (fun x : GRow => remapLandDE (setLandFromIsin x)))
      = GRow.Stueckzahl := funext hstz
  have hfun3 : (GRow.Betrag ∘ (fun x : GRow => remapLandDE (setLandFromIsin x)))
      = GRow.Betrag := funext hbet
  rw [hdfg, List.filter_map, List.map_map, List.map_map, hfun1, hfun2, hfun3]
  unfold df_g0
  rw [List.filter_map]
  have hbuild : ((fun a : GRow => gKeyOfG a == k) ∘ fun k' : GKey =>
      ({ orderID := k'.orderID, Waehrung := k'.Waehrung, Zahlungszweck := k'.Zahlungszweck,
         ISIN := k'.ISIN, Transaktion := k'.Transaktion, putCall := k'.putCall,
         listingExchange := k'.listingExchange,
         Stueckzahl := ((rows.filter (fun r => gKeyOf r == k')).map Row.Stueckzahl).sum,
         Datum := ((rows.filter (fun r => gKeyOf r == k')).map Row.Datum).sum /
           ((rows.filter (fun r => gKeyOf r == k')).length : ℚ),
         Betrag := ((rows.filter (fun r => gKeyOf r == k')).map Row.Betrag).sum,
         Laenderschluessel := "" } : GRow)) = fun k' : GKey => k' == k := by
    funext k'
    rfl
  rw [hbuild, filter_beq_nodup (nodup_sortBy_dedup gKeyLe (rows.map gKeyOf)) k]
  by_cases hk : k ∈ sortBy gKeyLe (rows.map gKeyOf).dedup
  · rw [if_pos hk]
    constructor <;> simp
  · rw [if_neg hk]
    have hnone : rows.filter (fun r => gKeyOf r == k) = [] := by
      rw [List.filter_eq_nil_iff]
      intro r hr
      simp only [beq_iff_eq]
      intro he
      exact hk ((mem_sortBy_dedup gKeyLe (rows.map gKeyOf) k).mpr
        (he ▸ List.mem_map_of_mem gKeyOf hr))
    rw [hnone]
    constructor <;> simp

/-- Column selection keeps the Kennzahl value. -/
theorem toOutput_Kennzahl (r : MRow) : (toOutput r).Kennzahl = r.Kennzahl := rfl

/-- The absolute-quantity step keeps the Kennzahl value. -/
theorem absStueckzahl_Kennzahl (r : MRow) : (absStueckzahl r).Kennzahl = r.Kennzahl := rfl

/-- Rounding then taking absolute values always yields integer-valued, non-negative
numeric columns, as long as the classification column is present. -/
theorem absRound_intOutput (X : OutputRecord) (hK : ∃ q0 : ℚ, X.Kennzahl = some q0) :
    intOutput (absRecord (roundRecord X)) := by
  rcases hK with ⟨q0, hq0⟩
  refine ⟨?_, ?_, ?_, ?_, ?_, ?_⟩
  · show ((roundHalfEven X.Belegart : ℤ) : ℚ).den = 1
    exact Rat.den_intCast _
  · show (match (X.Kennzahl.map fun kk => ((roundHalfEven kk : ℤ) : ℚ)) with
      | some kk => kk.den = 1
      | none => False)
    rw [hq0]
    show ((roundHalfEven q0 : ℤ) : ℚ).den = 1
    exact Rat.den_intCast _
  · show (|((roundHalfEven X.Betrag : ℤ) : ℚ)|).den = 1
    rw [← Int.cast_abs]
    exact Rat.den_intCast _
  · exact abs_nonneg _
  · show (|((roundHalfEven X.Stueckzahl : ℤ) : ℚ)|).den = 1
    rw [← Int.cast_abs]
    exact Rat.den_intCast _
  · exact abs_nonneg _

set_option maxHeartbeats 1600000 in
/-- C9 (amended): every record the monthly stage emits has integer documentTypeCode,
classificationCode, amountEur and quantity, with amountEur and quantity non-negative,
provided every surviving aggregate actually receives a classification code: its ISIN
carries a non-empty two-character country code, or it is an option row and every
option row venue is present in the table. Without that proviso the claim fails, see
the counterexample: a surviving row with empty ISIN and empty option flag keeps a
missing Kennzahl all the way into the CSV. -/
theorem C9_integer_output (w : ℤ) (L : ℚ) (g : List GRow) (out : List OutputRecord)
    (hout : monthlyStage (some w) L g = .ok out) (r : OutputRecord) (hr : r ∈ out)
    (hclass : ∀ m ∈ survivors w L g, m.ISIN.take 2 ≠ "" ∨
      (m.putCall ≠ "" ∧ optionLookupOK (survivors w L g) = true)) :
    intOutput r := by
  rw [monthlyStage_ok] at hout
  have he := Except.ok.inj hout
  rw [← he] at hr
  rcases List.mem_map.mp hr with ⟨m, hm, rfl⟩
  have hksome : ∃ q0 : ℚ,
      (setKennzahl258 (setKennzahl104 (optAssign (optionLookupOK (survivors w L g))
        (setBelegartKauf (setBelegart3 m))))).Kennzahl = some q0 := by
    have hI1 : (setBelegartKauf (setBelegart3 m)).ISIN = m.ISIN :=
      (setBelegartKauf_fields _).2.2.1
    have hP1 : (setBelegartKauf (setBelegart3 m)).putCall = m.putCall :=
      (setBelegartKauf_fields _).1
    have hL1 : (setBelegartKauf (setBelegart3 m)).listingExchange = m.listingExchange :=
      (setBelegartKauf_fields _).2.1
    have hI2 : (optAssign (optionLookupOK (survivors w L g))
        (setBelegartKauf (setBelegart3 m))).ISIN = m.ISIN := by
      rw [(optAssign_fields _ _).1, hI1]
    by_cases hDE : m.ISIN.take 2 = "DE"
    · refine ⟨258, ?_⟩
      rw [(setKennzahl258_fields _).2,
        if_pos (by rw [(setKennzahl104_fields _).1, hI2]; exact hDE)]
    · by_cases hE : m.ISIN.take 2 = ""
      · rcases hclass m hm with hne | ⟨hopt, hOK⟩
        · exact absurd hE hne
        · have hmem := List.all_eq_true.mp hOK m hm
          have hbeq : (m.putCall == "") = false := beq_eq_false_iff_ne.mpr hopt
          rw [hbeq, Bool.false_or] at hmem
          rcases Option.isSome_iff_exists.mp hmem with ⟨z, hz⟩
          have k2 : (optAssign (optionLookupOK (survivors w L g))
              (setBelegartKauf (setBelegart3 m))).Kennzahl = some ((z : ℤ) : ℚ) := by
            unfold optAssign
            rw [if_pos ⟨hOK, by rw [hP1]; exact hopt⟩]
            rw [hL1, hz]
            rfl
          have k3 : (setKennzahl104 (optAssign (optionLookupOK (survivors w L g))
              (setBelegartKauf (setBelegart3 m)))).Kennzahl = some ((z : ℤ) : ℚ) := by
            rw [(setKennzahl104_fields _).2,
              if_neg (by rw [hI2, hE]; simp), k2]
          refine ⟨((z : ℤ) : ℚ), ?_⟩
          rw [(setKennzahl258_fields _).2,
            if_neg (by rw [(setKennzahl104_fields _).1, hI2, hE]; simp), k3]
      · have k3 : (setKennzahl104 (optAssign (optionLookupOK (survivors w L g))
            (setBelegartKauf (setBelegart3 m)))).Kennzahl = some 104 := by
          rw [(setKennzahl104_fields _).2, if_pos (by rw [hI2]; exact ⟨hDE, hE⟩)]
        refine ⟨104, ?_⟩
        rw [(setKennzahl258_fields _).2,
          if_neg (by rw [(setKennzahl104_fields _).1, hI2]; exact hDE), k3]
  rcases hksome with ⟨q0, hq0⟩
  have hgoal : finishRow (optionLookupOK (survivors w L g)) m =
      absRecord (roundRecord (toOutput (absStueckzahl (setKennzahl258 (setKennzahl104
        (optAssign (optionLookupOK (survivors w L g)) (setBelegartKauf
        (setBelegart3 m)))))))) := rfl
  rw [hgoal]
  refine absRound_intOutput _ ⟨q0, ?_⟩
  rw [toOutput_Kennzahl, absStueckzahl_Kennzahl]
  exact hq0

/-- C1 (code bug evidence): the venue table maps CBOE to 821, yet the pipeline run on
the option trade tC1 (putCall C, listing exchange CBOE, ISIN US0378331005) emits
classification code 104: the ISIN overwrite at app.py line 272 applies to every row
with a non-DE, non-empty ISIN country code, not only to rows without a Kennzahl, so
it replaces the venue code the option rule had just assigned. The code comment at
line 271 says only rows without a Kennzahl should be set. -/
theorem C1_option_kennzahl_overwritten :
    optionExchanges "CBOE" = some 821 ∧
    runPipeline ⟨none, none⟩ failSource 0 100 [tC1] =
      .ok [⟨3, some 104, "AAPL OPT", "US", 20, "US0378331005", 10, "EUR"⟩] := by
  refine ⟨rfl, ?_⟩
  have h1 : prepared failSource 0 100 [tC1] = [enrichRow failSource tC1] :=
    prepared_singleton _ _ _ _ (by decide) (by norm_num [tC1]) (by norm_num [tC1]) (by decide)
  have htr : translateTransaktion "SELL" = "Verkauf" := rfl
  have h2 : enrichRow failSource tC1 =
      ⟨"11", "EUR", "AAPL OPT", "US0378331005", "Verkauf", "C", "CBOE", 5, 10, 20000, 1, 20⟩ := by
    norm_num [enrichRow, fxRate, failSource, tC1, htr]
  have h3 : df_g [(⟨"11", "EUR", "AAPL OPT", "US0378331005", "Verkauf", "C", "CBOE",
      5, 10, 20000, 1, 20⟩ : Row)] =
      [⟨"11", "EUR", "AAPL OPT", "US0378331005", "Verkauf", "C", "CBOE", 10, 5, 20, "US"⟩] := by
    rw [df_g_singleton]
    have ht : ("US0378331005" : String).take 2 = "US" := rfl
    simp [ht]
  have h4 : survivors 0 12.5 [(⟨"11", "EUR", "AAPL OPT", "US0378331005", "Verkauf", "C",
      "CBOE", 10, 5, 20, "US"⟩ : GRow)] =
      [⟨"EUR", "AAPL OPT", "US", "US0378331005", "C", "CBOE", "Verkauf", 10, 20, 0, none⟩] := by
    unfold survivors
    rw [if_pos (by norm_num), df_m_grouped_singleton]
    norm_num [List.filter_singleton]
  have h5 : optionLookupOK [(⟨"EUR", "AAPL OPT", "US", "US0378331005", "C", "CBOE",
      "Verkauf", 10, 20, 0, none⟩ : MRow)] = true := by
    simp [optionLookupOK, optionExchanges]
  have ht : ("US0378331005" : String).take 2 = "US" := rfl
  have hr3 : roundHalfEven (3 : ℚ) = 3 := by
    rw [show (3 : ℚ) = ((3 : ℤ) : ℚ) by norm_num, roundHalfEven_intCast]
  have hr104 : roundHalfEven (104 : ℚ) = 104 := by
    rw [show (104 : ℚ) = ((104 : ℤ) : ℚ) by norm_num, roundHalfEven_intCast]
  have hr20 : roundHalfEven (20 : ℚ) = 20 := by
    rw [show (20 : ℚ) = ((20 : ℤ) : ℚ) by norm_num, roundHalfEven_intCast]
  have hr10 : roundHalfEven (10 : ℚ) = 10 := by
    rw [show (10 : ℚ) = ((10 : ℤ) : ℚ) by norm_num, roundHalfEven_intCast]
  have ha10 : |(10 : ℚ)| = 10 := abs_of_nonneg (by norm_num)
  have ha20 : |(20 : ℚ)| = 20 := abs_of_nonneg (by norm_num)
  have h6 : finishRow true (⟨"EUR", "AAPL OPT", "US", "US0378331005", "C", "CBOE",
      "Verkauf", 10, 20, 0, none⟩ : MRow) =
      ⟨3, some 104, "AAPL OPT", "US", 20, "US0378331005", 10, "EUR"⟩ := by
    simp [finishRow, setBelegart3, setBelegartKauf, optAssign, setKennzahl104,
      setKennzahl258, absStueckzahl, toOutput, roundRecord, absRecord, optionExchanges,
      ht, ha10, hr3, hr104, hr20, hr10, ha20]
  show monthlyStage (withoutLimitValue ⟨none, none⟩) (limitValue ⟨none, none⟩)
    (df_g (prepared failSource 0 100 [tC1])) = _
  rw [h1, h2, h3, show withoutLimitValue ⟨none, none⟩ = some 0 from rfl,
    show limitValue ⟨none, none⟩ = (12.5 : ℚ) from rfl, monthlyStage_ok, h4, h5,
    List.map_cons, List.map_nil, h6]

/-- C8 (code bug evidence): the option trade tC8 lists on NYMEX, which is absent from
the venue table. The run does not abort: the KeyError from line 255 is caught, a
message is printed, the later astype failure is caught as well, and the pipeline
emits the row with no classification code at all (an unclassified output row). -/
theorem C8_missing_venue_row_emitted :
    optionExchanges "NYMEX" = none ∧
    runPipeline ⟨none, none⟩ failSource 0 100 [tC8] =
      .ok [⟨3, none, "CL OPT", "", 20, "", 4, "EUR"⟩] := by
  refine ⟨rfl, ?_⟩
  have h1 : prepared failSource 0 100 [tC8] = [enrichRow failSource tC8] :=
    prepared_singleton _ _ _ _ (by decide) (by norm_num [tC8]) (by norm_num [tC8]) (by decide)
  have htr : translateTransaktion "SELL" = "Verkauf" := rfl
  have h2 : enrichRow failSource tC8 =
      ⟨"12", "EUR", "CL OPT", "", "Verkauf", "C", "NYMEX", 6, 4, 20000, 1, 20⟩ := by
    norm_num [enrichRow, fxRate, failSource, tC8, htr]
  have h3 : df_g [(⟨"12", "EUR", "CL OPT", "", "Verkauf", "C", "NYMEX",
      6, 4, 20000, 1, 20⟩ : Row)] =
      [⟨"12", "EUR", "CL OPT", "", "Verkauf", "C", "NYMEX", 4, 6, 20, ""⟩] := by
    rw [df_g_singleton]
    have ht : ("" : String).take 2 = "" := rfl
    simp [ht]
  have h4 : survivors 0 12.5 [(⟨"12", "EUR", "CL OPT", "", "Verkauf", "C",
      "NYMEX", 4, 6, 20, ""⟩ : GRow)] =
      [⟨"EUR", "CL OPT", "", "", "C", "NYMEX", "Verkauf", 4, 20, 0, none⟩] := by
    unfold survivors
    rw [if_pos (by norm_num), df_m_grouped_singleton]
    norm_num [List.filter_singleton]
  have h5 : optionLookupOK [(⟨"EUR", "CL OPT", "", "", "C", "NYMEX",
      "Verkauf", 4, 20, 0, none⟩ : MRow)] = false := by
    simp [optionLookupOK, optionExchanges]
  have ht : ("" : String).take 2 = "" := rfl
  have hr3 : roundHalfEven (3 : ℚ) = 3 := by
    rw [show (3 : ℚ) = ((3 : ℤ) : ℚ) by norm_num, roundHalfEven_intCast]
  have hr20 : roundHalfEven (20 : ℚ) = 20 := by
    rw [show (20 : ℚ) = ((20 : ℤ) : ℚ) by norm_num, roundHalfEven_intCast]
  have hr4 : roundHalfEven (4 : ℚ) = 4 := by
    rw [show (4 : ℚ) = ((4 : ℤ) : ℚ) by norm_num, roundHalfEven_intCast]
  have ha4 : |(4 : ℚ)| = 4 := abs_of_nonneg (by norm_num)
  have ha20 : |(20 : ℚ)| = 20 := abs_of_nonneg (by norm_num)
  have h6 : finishRow false (⟨"EUR", "CL OPT", "", "", "C", "NYMEX",
      "Verkauf", 4, 20, 0, none⟩ : MRow) =
      ⟨3, none, "CL OPT", "", 20, "", 4, "EUR"⟩ := by
    simp [finishRow, setBelegart3, setBelegartKauf, optAssign, setKennzahl104,
      setKennzahl258, absStueckzahl, toOutput, roundRecord, absRecord,
      ht, ha4, hr3, hr20, hr4, ha20]
  show monthlyStage (withoutLimitValue ⟨none, none⟩) (limitValue ⟨none, none⟩)
    (df_g (prepared failSource 0 100 [tC8])) = _
  rw [h1, h2, h3, show withoutLimitValue ⟨none, none⟩ = some 0 from rfl,
    show limitValue ⟨none, none⟩ = (12.5 : ℚ) from rfl, monthlyStage_ok, h4, h5,
    List.map_cons, List.map_nil, h6]

/-- C9 (counterexample to the unqualified claim): the plain trade tFut (no ISIN, no
option flag) survives the threshold and reaches the formatter, yet its emitted record
has no classification code, so the classificationCode column is not an integer. -/
theorem C9_unclassified_counterexample :
    runPipeline ⟨none, none⟩ failSource 0 100 [tFut] =
      .ok [⟨4, none, "FGBL", "", 20, "", 10, "EUR"⟩] ∧
    ¬ intOutput ⟨4, none, "FGBL", "", 20, "", 10, "EUR"⟩ := by
  constructor
  · have h1 : prepared failSource 0 100 [tFut] = [enrichRow failSource tFut] :=
      prepared_singleton _ _ _ _ (by decide) (by norm_num [tFut]) (by norm_num [tFut]) (by decide)
    have htr : translateTransaktion "BUY" = "Kauf" := rfl
    have h2 : enrichRow failSource tFut =
        ⟨"13", "EUR", "FGBL", "", "Kauf", "", "EUREX", 7, 10, -20000, 1, -20⟩ := by
      norm_num [enrichRow, fxRate, failSource, tFut, htr]
    have h3 : df_g [(⟨"13", "EUR", "FGBL", "", "Kauf", "", "EUREX",
        7, 10, -20000, 1, -20⟩ : Row)] =
        [⟨"13", "EUR", "FGBL", "", "Kauf", "", "EUREX", 10, 7, -20, ""⟩] := by
      rw [df_g_singleton]
      have ht : ("" : String).take 2 = "" := rfl
      simp [ht]
    have h4 : survivors 0 12.5 [(⟨"13", "EUR", "FGBL", "", "Kauf", "",
        "EUREX", 10, 7, -20, ""⟩ : GRow)] =
        [⟨"EUR", "FGBL", "", "", "", "EUREX", "Kauf", 10, -20, 0, none⟩] := by
      unfold survivors
      rw [if_pos (by norm_num), df_m_grouped_singleton]
      norm_num [List.filter_singleton]
    have h5 : optionLookupOK [(⟨"EUR", "FGBL", "", "", "", "EUREX",
        "Kauf", 10, -20, 0, none⟩ : MRow)] = true := by
      simp [optionLookupOK]
    have ht : ("" : String).take 2 = "" := rfl
    have hr4 : roundHalfEven (4 : ℚ) = 4 := by
      rw [show (4 : ℚ) = ((4 : ℤ) : ℚ) by norm_num, roundHalfEven_intCast]
    have hrm20 : roundHalfEven (-20 : ℚ) = -20 := by
      rw [show (-20 : ℚ) = ((-20 : ℤ) : ℚ) by norm_num, roundHalfEven_intCast]
    have hr10 : roundHalfEven (10 : ℚ) = 10 := by
      rw [show (10 : ℚ) = ((10 : ℤ) : ℚ) by norm_num, roundHalfEven_intCast]
    have ha10 : |(10 : ℚ)| = 10 := abs_of_nonneg (by norm_num)
    have ham20 : |(-20 : ℚ)| = 20 := by norm_num
    have h6 : finishRow true (⟨"EUR", "FGBL", "", "", "", "EUREX",
        "Kauf", 10, -20, 0, none⟩ : MRow) =
        ⟨4, none, "FGBL", "", 20, "", 10, "EUR"⟩ := by
      simp [finishRow, setBelegart3, setBelegartKauf, optAssign, setKennzahl104,
        setKennzahl258, absStueckzahl, toOutput, roundRecord, absRecord,
        ht, ha10, hr4, hrm20, hr10, ham20]
    show monthlyStage (withoutLimitValue ⟨none, none⟩) (limitValue ⟨none, none⟩)
      (df_g (prepared failSource 0 100 [tFut])) = _
    rw [h1, h2, h3, show withoutLimitValue ⟨none, none⟩ = some 0 from rfl,
      show limitValue ⟨none, none⟩ = (12.5 : ℚ) from rfl, monthlyStage_ok, h4, h5,
      List.map_cons, List.map_nil, h6]
  · intro h
    exact h.2.1

/-- C9 witness: the amended theorem applied to the single aggregate gRowUS with the
threshold disabled (withoutLimit bound to 1) and every hypothesis discharged. -/
theorem C9_integer_output_witness :
    intOutput ⟨4, some 104, "ACME", "US", 20, "US0001", 10, "USD"⟩ := by
  have ht : ("US0001" : String).take 2 = "US" := rfl
  have hsur : survivors 1 5 [gRowUS] =
      [⟨"USD", "ACME", "US", "US0001", "", "NYSE", "Kauf", 10, 20, 0, none⟩] := by
    unfold survivors
    rw [if_neg (by norm_num), df_m_grouped_singleton]
    simp [gRowUS]
  have hlk : optionLookupOK (survivors 1 5 [gRowUS]) = true := by
    rw [hsur]
    simp [optionLookupOK]
  have hr4 : roundHalfEven (4 : ℚ) = 4 := by
    rw [show (4 : ℚ) = ((4 : ℤ) : ℚ) by norm_num, roundHalfEven_intCast]
  have hr104 : roundHalfEven (104 : ℚ) = 104 := by
    rw [show (104 : ℚ) = ((104 : ℤ) : ℚ) by norm_num, roundHalfEven_intCast]
  have hr20 : roundHalfEven (20 : ℚ) = 20 := by
    rw [show (20 : ℚ) = ((20 : ℤ) : ℚ) by norm_num, roundHalfEven_intCast]
  have hr10 : roundHalfEven (10 : ℚ) = 10 := by
    rw [show (10 : ℚ) = ((10 : ℤ) : ℚ) by norm_num, roundHalfEven_intCast]
  have ha10 : |(10 : ℚ)| = 10 := abs_of_nonneg (by norm_num)
  have ha20 : |(20 : ℚ)| = 20 := abs_of_nonneg (by norm_num)
  have h6 : finishRow true (⟨"USD", "ACME", "US", "US0001", "", "NYSE",
      "Kauf", 10, 20, 0, none⟩ : MRow) =
      ⟨4, some 104, "ACME", "US", 20, "US0001", 10, "USD"⟩ := by
    simp [finishRow, setBelegart3, setBelegartKauf, optAssign, setKennzahl104,
      setKennzahl258, absStueckzahl, toOutput, roundRecord, absRecord,
      ht, ha10, hr4, hr104, hr20, hr10, ha20]
  have hout : monthlyStage (some 1) 5 [gRowUS] =
      .ok [⟨4, some 104, "ACME", "US", 20, "US0001", 10, "USD"⟩] := by
    rw [monthlyStage_ok, hlk, hsur, List.map_cons, List.map_nil, h6]
  exact C9_integer_output 1 5 [gRowUS]
    [⟨4, some 104, "ACME", "US", 20, "US0001", 10, "USD"⟩] hout
    ⟨4, some 104, "ACME", "US", 20, "US0001", 10, "USD"⟩ (by simp)
    (by
      intro m hm
      rw [hsur] at hm
      rcases List.mem_singleton.mp hm with rfl
      left
      show ("US0001" : String).take 2 ≠ ""
      rw [ht]
      simp)

end AWV
